import Mathlib

/-!
Shallow embedding of the timetable preference store
(`src/store/timetable.ts`) and the teacher-info editor save handler
(`src/components/teacher-info-popup.tsx`).

JavaScript objects used as string-keyed records are modelled as
insertion-ordered association lists (`JsRecord`): spread-update
(`{...obj, [k]: v}`) replaces the value in place when the key exists and
appends otherwise, `delete obj[k]` removes the key, and property access
returns `Option`.  `string | undefined` values are `Option String`.
Network fetches are modelled by passing the outcome of the single
`fetch` call as an explicit parameter (`FetchResult`); each store action
returns the new state together with the list of requests it issued and,
where the source can throw, the thrown error.
-/

namespace Timetable

/-- A JavaScript object used as a string-keyed record: insertion-ordered
association list. -/
abbrev JsRecord (α : Type) := List (String × α)

/-- `obj[k]`: the value at key `k`, or `undefined` (`none`). -/
def rget {α : Type} (m : JsRecord α) (k : String) : Option α :=
  (m.find? (fun p => p.1 == k)).map Prod.snd

/-- `{...m, [k]: v}`: replace in place when `k` is present, else append. -/
def rupdate {α : Type} (m : JsRecord α) (k : String) (v : α) : JsRecord α :=
  if m.any (fun p => p.1 == k) then
    m.map (fun p => if p.1 == k then (k, v) else p)
  else
    m ++ [(k, v)]

/-- `delete m[k]`. -/
def rdelete {α : Type} (m : JsRecord α) (k : String) : JsRecord α :=
  m.filter (fun p => p.1 != k)

/-- JavaScript truthiness of a `string | undefined` value:
`undefined` and the empty string are falsy. -/
def isTruthy : Option String → Bool
  | none => false
  | some s => s != ""

/-- `ClassConfig` from the source.  The source field `class` is a Lean
keyword and is embedded as `classNo`. -/
structure ClassConfig where
  school : String
  schoolCode : String
  grade : String
  classNo : String
  lunchAfter : Nat
  deriving DecidableEq

/-- `DEFAULT_CONFIG` from the source. -/
def DEFAULT_CONFIG : ClassConfig :=
  { school := "목운중학교"
    schoolCode := "7081492"
    grade := "3"
    classNo := "4"
    lunchAfter := 4 }

/-- The `original` record of a timetable cell. -/
structure OriginalCell where
  period : Int
  subject : String
  teacher : String
  deriving DecidableEq

/-- One period cell of the timetable grid. -/
structure Cell where
  period : Int
  subject : String
  teacher : String
  replaced : Bool
  original : Option OriginalCell
  deriving DecidableEq

/-- `TimetableData` from the source.  Grid entries are `Option Cell`
because the source guards property access with `cell?.subject`. -/
structure TimetableData where
  day_time : List String
  timetable : List (List (Option Cell))
  update_date : String
  deriving DecidableEq

/-- The user override map `teacherInfo`:
`Record<string, Record<string, string>>`. -/
abbrev TeacherInfo := JsRecord (JsRecord String)

/-- `teacherInfo[configKey]?.[subject]`. -/
def rget2 (m : TeacherInfo) (key subject : String) : Option String :=
  (rget m key).bind (fun inner => rget inner subject)

/-- The error a rejected fetch carries: `some msg` when the thrown value
is an `Error` instance with message `msg`, `none` otherwise.  A non-2xx
response throws `new Error("Error: " ++ status)`, so it is a
`some` value. -/
abbrev JsErr := Option String

/-- Outcome of the single network call an action performs. -/
abbrev FetchResult := Except JsErr TimetableData

/-- The query parameters of one `GET {API_URL}/timetable?...` request. -/
structure FetchRequest where
  grade : String
  classno : String
  week : String
  schoolcode : String
  deriving DecidableEq

/-- The store state, together with the two persisted cookie slots
(`classConfig` and `teacherInfo`); JSON serialization is abstracted as
the identity. -/
structure StoreState where
  classConfig : ClassConfig
  teacherInfo : TeacherInfo
  tempConfig : Option ClassConfig
  timetableData : Option TimetableData
  isLoading : Bool
  isWeekChangeLoading : Bool
  error : Option String
  isNextWeek : Bool
  showConfig : Bool
  cookieClassConfig : Option ClassConfig
  cookieTeacherInfo : Option TeacherInfo
  deriving DecidableEq

/-- The per-class cache key
`` `${classConfig.schoolCode}-${classConfig.grade}-${classConfig.class}` ``. -/
def configKey (c : ClassConfig) : String :=
  c.schoolCode ++ "-" ++ c.grade ++ "-" ++ c.classNo

/-- `timetableData?.timetable.flat().find(cell => cell?.subject === subject)?.teacher`. -/
def findDefaultInfo (td : Option TimetableData) (subject : String) : Option String :=
  match td with
  | none => none
  | some data =>
    ((data.timetable.flatten).find? (fun cell =>
        cell.map Cell.subject == some subject)).bind (Option.map Cell.teacher)

/-- The error message built by the catch blocks of `initializeStore`,
`changeWeek` and `fetchTimetable`. -/
def fetchErrorMessage (e : JsErr) : String :=
  match e with
  | some m => "시간표를 불러오는 중 오류가 발생했습니다: " ++ m
  | none => "시간표를 불러오지 못했습니다. 학교 정보와 인터넷 연결을 확인해 주세요."

/-- The error message built by the catch block of `saveConfig`. -/
def saveErrorMessage (e : JsErr) : String :=
  match e with
  | some m => "설정을 저장하는 중 오류가 발생했습니다: " ++ m
  | none => "설정을 저장하지 못했습니다. 학교 정보와 인터넷 연결을 확인해 주세요."

/-- `set({ teacherInfo: m }); setCookie('teacherInfo', JSON.stringify(m))`. -/
def persistTeacherInfo (st : StoreState) (m : TeacherInfo) : StoreState :=
  { st with teacherInfo := m, cookieTeacherInfo := some m }

/-- `saveTeacherInfo(subject, info)` (source lines 210-240). -/
def saveTeacherInfo (st : StoreState) (subject info : String) : StoreState :=
  let key := configKey st.classConfig
  let defaultInfo := findDefaultInfo st.timetableData subject
  if some info ≠ defaultInfo then
    persistTeacherInfo st
      (rupdate st.teacherInfo key
        (rupdate ((rget st.teacherInfo key).getD []) subject info))
  else
    if isTruthy (rget2 st.teacherInfo key subject) then
      let inner := rdelete ((rget st.teacherInfo key).getD []) subject
      persistTeacherInfo st
        (if inner.isEmpty then rdelete st.teacherInfo key
         else rupdate st.teacherInfo key inner)
    else st

/-- `getTeacherInfo(subject)` (source lines 242-255). -/
def getTeacherInfo (st : StoreState) (subject : String) : Option String :=
  let key := configKey st.classConfig
  match rget2 st.teacherInfo key subject with
  | some override => some override
  | none =>
    match findDefaultInfo st.timetableData subject with
    | some d => if d == "" then none else some d
    | none => none

/-- `fetchTimetable(config?)` (source lines 257-284).  Returns the new
state, the issued request, and `some e` when the catch block re-throws. -/
def fetchTimetable (st : StoreState) (config : Option ClassConfig)
    (res : FetchResult) : StoreState × List FetchRequest × Option JsErr :=
  let currentConfig := config.getD st.classConfig
  let st1 : StoreState := { st with isLoading := true, error := none }
  let req : FetchRequest :=
    { grade := currentConfig.grade
      classno := currentConfig.classNo
      week := if st1.isNextWeek then "1" else "0"
      schoolcode := currentConfig.schoolCode }
  match res with
  | .ok data =>
    ({ st1 with timetableData := some data, isLoading := false }, [req], none)
  | .error e =>
    ({ st1 with error := some (fetchErrorMessage e), isLoading := false },
     [req], some e)

/-- `initializeStore()` (source lines 78-121).  Never throws: the fetch
error is caught and converted to a message, and `finally` clears the
loading flag. -/
def initializeStore (st : StoreState) (res : FetchResult) :
    StoreState × List FetchRequest :=
  let config := st.cookieClassConfig.getD DEFAULT_CONFIG
  let teacherInfo := st.cookieTeacherInfo.getD []
  let st1 : StoreState :=
    { st with classConfig := config, teacherInfo := teacherInfo,
              tempConfig := none, isLoading := true }
  let req : FetchRequest :=
    { grade := config.grade
      classno := config.classNo
      week := "0"
      schoolcode := config.schoolCode }
  match res with
  | .ok data =>
    ({ st1 with timetableData := some data, isNextWeek := false,
                error := none, isLoading := false }, [req])
  | .error e =>
    ({ st1 with error := some (fetchErrorMessage e), isLoading := false }, [req])

/-- `changeWeek(isNext)` (source lines 140-174).  Never throws. -/
def changeWeek (st : StoreState) (isNext : Bool) (res : FetchResult) :
    StoreState × List FetchRequest :=
  if (isNext && st.isNextWeek) || (!isNext && !st.isNextWeek) then
    (st, [])
  else
    let st1 : StoreState := { st with isWeekChangeLoading := true }
    let req : FetchRequest :=
      { grade := st1.classConfig.grade
        classno := st1.classConfig.classNo
        week := if isNext then "1" else "0"
        schoolcode := st1.classConfig.schoolCode }
    match res with
    | .ok data =>
      ({ st1 with timetableData := some data, isNextWeek := isNext,
                  error := none, isWeekChangeLoading := false }, [req])
    | .error e =>
      ({ st1 with error := some (fetchErrorMessage e),
                  isWeekChangeLoading := false }, [req])

/-- `saveConfig()` (source lines 176-208).  Returns the new state, the
issued requests, and the returned boolean. -/
def saveConfig (st : StoreState) (res : FetchResult) :
    StoreState × List FetchRequest × Bool :=
  match st.tempConfig with
  | none => (st, [], false)
  | some tempConfig =>
    let st1 : StoreState := { st with isNextWeek := false, isWeekChangeLoading := true }
    let fr := fetchTimetable st1 (some tempConfig) res
    match fr.2.2 with
    | none =>
      ({ fr.1 with cookieClassConfig := some tempConfig,
                   classConfig := tempConfig,
                   tempConfig := none,
                   showConfig := false,
                   isWeekChangeLoading := false }, fr.2.1, true)
    | some e =>
      ({ fr.1 with error := some (saveErrorMessage e),
                   isWeekChangeLoading := false }, fr.2.1, false)

/-- Result of the teacher-info popup save handler: whether `onSave`
(wired to the store's `saveTeacherInfo`) was called and with what, the
validation error message, and whether the popup is open afterwards. -/
structure PopupResult where
  savedInfo : Option String
  error : String
  isOpen : Bool
  deriving DecidableEq

/-- `handleSave` of `TeacherInfoPopup`
(`src/components/teacher-info-popup.tsx` lines 42-50), given the current
input value `teacherInfo` of a popup that is open with no prior error. -/
def handleSave (teacherInfo : String) : PopupResult :=
  if teacherInfo.length > 4 then
    { savedInfo := none
      error := "선생님 이름은 4자를 초과할 수 없습니다"
      isOpen := true }
  else
    { savedInfo := some teacherInfo
      error := ""
      isOpen := false }

/-- The OverrideMap invariant claimed by the spec: no stored override
value equals the current server default teacher for the same
(key, subject) pair in the loaded snapshot. -/
def overrideInvariant (st : StoreState) : Prop :=
  ∀ p ∈ st.teacherInfo, ∀ q ∈ p.2,
    findDefaultInfo st.timetableData q.1 ≠ some q.2

instance (st : StoreState) : Decidable (overrideInvariant st) := by
  unfold overrideInvariant
  infer_instance

/-- The store's initial state (source lines 66-76), with empty cookies. -/
def baseState : StoreState :=
  { classConfig := DEFAULT_CONFIG
    teacherInfo := []
    tempConfig := none
    timetableData := none
    isLoading := true
    isWeekChangeLoading := false
    error := none
    isNextWeek := false
    showConfig := false
    cookieClassConfig := none
    cookieTeacherInfo := none }

/-! ### Lemmas about the record operations -/

theorem rget_nil {α : Type} (k : String) : rget ([] : JsRecord α) k = none := rfl

theorem rget_cons_pos {α : Type} (p : String × α) (t : JsRecord α) (k : String)
    (h : (p.1 == k) = true) : rget (p :: t) k = some p.2 := by
  unfold rget
  rw [List.find?_cons_of_pos (p := fun q => q.1 == k) t h]
  rfl

theorem rget_cons_neg {α : Type} (p : String × α) (t : JsRecord α) (k : String)
    (h : (p.1 == k) = false) : rget (p :: t) k = rget t k := by
  unfold rget
  rw [List.find?_cons_of_neg (p := fun q => q.1 == k) t (by simp [h])]

theorem rget_map_update {α : Type} (m : JsRecord α) (k : String) (v : α)
    (h : m.any (fun p => p.1 == k) = true) :
    rget (m.map (fun p => if p.1 == k then (k, v) else p)) k = some v := by
  induction m with
  | nil => simp at h
  | cons p t ih =>
    rw [List.map_cons]
    by_cases hp : (p.1 == k) = true
    · rw [if_pos hp, rget_cons_pos _ _ _ (beq_self_eq_true k)]
    · have hp' : (p.1 == k) = false := by simpa using hp
      have ht : t.any (fun p => p.1 == k) = true := by
        simp only [List.any_cons, Bool.or_eq_true] at h
        exact h.resolve_left hp
      rw [if_neg hp, rget_cons_neg _ _ _ hp']
      exact ih ht

theorem rget_append_single {α : Type} (m : JsRecord α) (k : String) (v : α)
    (h : m.any (fun p => p.1 == k) = false) :
    rget (m ++ [(k, v)]) k = some v := by
  induction m with
  | nil =>
    rw [List.nil_append, rget_cons_pos _ _ _ (beq_self_eq_true k)]
  | cons p t ih =>
    simp only [List.any_cons, Bool.or_eq_false_iff] at h
    rw [List.cons_append, rget_cons_neg _ _ _ h.1]
    exact ih h.2

theorem rupdate_of_any {α : Type} (m : JsRecord α) (k : String) (v : α)
    (h : m.any (fun p => p.1 == k) = true) :
    rupdate m k v = m.map (fun p => if p.1 == k then (k, v) else p) := by
  unfold rupdate
  rw [if_pos h]

theorem rupdate_of_not_any {α : Type} (m : JsRecord α) (k : String) (v : α)
    (h : m.any (fun p => p.1 == k) = false) :
    rupdate m k v = m ++ [(k, v)] := by
  unfold rupdate
  rw [if_neg (by simp [h])]

theorem rget_rupdate_self {α : Type} (m : JsRecord α) (k : String) (v : α) :
    rget (rupdate m k v) k = some v := by
  by_cases h : m.any (fun p => p.1 == k) = true
  · rw [rupdate_of_any m k v h]
    exact rget_map_update m k v h
  · have h' : m.any (fun p => p.1 == k) = false := (Bool.not_eq_true _) ▸ h
    rw [rupdate_of_not_any m k v h']
    exact rget_append_single m k v h'

theorem rget_rdelete_self {α : Type} (m : JsRecord α) (k : String) :
    rget (rdelete m k) k = none := by
  induction m with
  | nil => rfl
  | cons p t ih =>
    show rget (List.filter (fun p => p.1 != k) (p :: t)) k = none
    rw [List.filter_cons]
    by_cases hp : (p.1 == k) = true
    · rw [if_neg (by simp [bne, hp])]
      exact ih
    · have hp' : (p.1 == k) = false := by simpa using hp
      rw [if_pos (by simp [bne, hp']), rget_cons_neg _ _ _ hp']
      exact ih

theorem any_map_update {α : Type} (m : JsRecord α) (k : String) (v : α)
    (h : m.any (fun p => p.1 == k) = true) :
    (m.map (fun p => if p.1 == k then (k, v) else p)).any (fun p => p.1 == k) = true := by
  induction m with
  | nil => simp at h
  | cons p t ih =>
    rw [List.map_cons]
    by_cases hp : (p.1 == k) = true
    · rw [if_pos hp, List.any_cons]
      simp
    · have ht : t.any (fun p => p.1 == k) = true := by
        simp only [List.any_cons, Bool.or_eq_true] at h
        exact h.resolve_left hp
      rw [if_neg hp, List.any_cons, ih ht]
      simp

theorem any_rupdate_self {α : Type} (m : JsRecord α) (k : String) (v : α) :
    (rupdate m k v).any (fun p => p.1 == k) = true := by
  by_cases h : m.any (fun p => p.1 == k) = true
  · rw [rupdate_of_any m k v h]
    exact any_map_update m k v h
  · have h' : m.any (fun p => p.1 == k) = false := (Bool.not_eq_true _) ▸ h
    rw [rupdate_of_not_any m k v h', List.any_append]
    simp

theorem map_update_idem {α : Type} (m : JsRecord α) (k : String) (v : α) :
    (m.map (fun p => if p.1 == k then (k, v) else p)).map
        (fun p => if p.1 == k then (k, v) else p)
      = m.map (fun p => if p.1 == k then (k, v) else p) := by
  induction m with
  | nil => rfl
  | cons p t ih =>
    rw [List.map_cons]
    by_cases hp : (p.1 == k) = true
    · rw [if_pos hp, List.map_cons, if_pos (beq_self_eq_true k), ih]
    · rw [if_neg hp, List.map_cons, if_neg hp, ih]

theorem map_update_of_not_any {α : Type} (m : JsRecord α) (k : String) (v : α)
    (h : m.any (fun p => p.1 == k) = false) :
    m.map (fun p => if p.1 == k then (k, v) else p) = m := by
  induction m with
  | nil => rfl
  | cons p t ih =>
    simp only [List.any_cons, Bool.or_eq_false_iff] at h
    rw [List.map_cons, if_neg (by simp [h.1]), ih h.2]

theorem rupdate_idem {α : Type} (m : JsRecord α) (k : String) (v : α) :
    rupdate (rupdate m k v) k v = rupdate m k v := by
  rw [rupdate_of_any (rupdate m k v) k v (any_rupdate_self m k v)]
  by_cases h : m.any (fun p => p.1 == k) = true
  · rw [rupdate_of_any m k v h]
    exact map_update_idem m k v
  · have h' : m.any (fun p => p.1 == k) = false := (Bool.not_eq_true _) ▸ h
    rw [rupdate_of_not_any m k v h', List.map_append, map_update_of_not_any m k v h']
    simp

/-! ### Lemmas about the store operations -/

theorem persistTeacherInfo_teacherInfo (st : StoreState) (m : TeacherInfo) :
    (persistTeacherInfo st m).teacherInfo = m := rfl

theorem saveTeacherInfo_classConfig (st : StoreState) (S E : String) :
    (saveTeacherInfo st S E).classConfig = st.classConfig := by
  simp only [saveTeacherInfo]
  split
  · rfl
  · split
    · rfl
    · rfl

theorem saveTeacherInfo_timetableData (st : StoreState) (S E : String) :
    (saveTeacherInfo st S E).timetableData = st.timetableData := by
  simp only [saveTeacherInfo]
  split
  · rfl
  · split
    · rfl
    · rfl

theorem saveTeacherInfo_of_ne (st : StoreState) (S E : String)
    (h : some E ≠ findDefaultInfo st.timetableData S) :
    saveTeacherInfo st S E = persistTeacherInfo st
      (rupdate st.teacherInfo (configKey st.classConfig)
        (rupdate ((rget st.teacherInfo (configKey st.classConfig)).getD []) S E)) := by
  simp only [saveTeacherInfo]
  rw [if_pos h]

theorem saveTeacherInfo_of_eq_truthy (st : StoreState) (S E : String)
    (h : some E = findDefaultInfo st.timetableData S)
    (ht : isTruthy (rget2 st.teacherInfo (configKey st.classConfig) S) = true) :
    saveTeacherInfo st S E = persistTeacherInfo st
      (if (rdelete ((rget st.teacherInfo (configKey st.classConfig)).getD []) S).isEmpty then
        rdelete st.teacherInfo (configKey st.classConfig)
       else
        rupdate st.teacherInfo (configKey st.classConfig)
          (rdelete ((rget st.teacherInfo (configKey st.classConfig)).getD []) S)) := by
  simp only [saveTeacherInfo]
  rw [if_neg (by rw [← h]; simp), if_pos ht]

theorem saveTeacherInfo_of_eq_falsy (st : StoreState) (S E : String)
    (h : some E = findDefaultInfo st.timetableData S)
    (ht : isTruthy (rget2 st.teacherInfo (configKey st.classConfig) S) = false) :
    saveTeacherInfo st S E = st := by
  simp only [saveTeacherInfo]
  rw [if_neg (by rw [← h]; simp), if_neg (by rw [ht]; exact Bool.false_ne_true)]

theorem rget2_saveTeacherInfo_deleted (st : StoreState) (S E : String)
    (h : some E = findDefaultInfo st.timetableData S)
    (ht : isTruthy (rget2 st.teacherInfo (configKey st.classConfig) S) = true) :
    rget2 (saveTeacherInfo st S E).teacherInfo (configKey st.classConfig) S = none := by
  rw [saveTeacherInfo_of_eq_truthy st S E h ht, persistTeacherInfo_teacherInfo]
  by_cases he :
      (rdelete ((rget st.teacherInfo (configKey st.classConfig)).getD []) S).isEmpty = true
  · rw [if_pos he]
    unfold rget2
    rw [rget_rdelete_self]
    rfl
  · rw [if_neg he]
    unfold rget2
    rw [rget_rupdate_self, Option.some_bind, rget_rdelete_self]

theorem getTeacherInfo_of_override (st : StoreState) (S v : String)
    (h : rget2 st.teacherInfo (configKey st.classConfig) S = some v) :
    getTeacherInfo st S = some v := by
  simp only [getTeacherInfo]
  rw [h]

theorem getTeacherInfo_eq_default (st : StoreState) (S d : String)
    (hov : rget2 st.teacherInfo (configKey st.classConfig) S = none)
    (hd : findDefaultInfo st.timetableData S = some d) (hne : d ≠ "") :
    getTeacherInfo st S = some d := by
  simp only [getTeacherInfo]
  rw [hov, hd]
  simp [hne]

/-! ### Claims -/

/-- Snapshot whose only cell is subject `Math` taught by `Kim`. -/
def mathKimData : TimetableData :=
  { day_time := ["월"]
    timetable := [[some { period := 1, subject := "Math", teacher := "Kim",
                          replaced := false, original := none }]]
    update_date := "" }

/-- Store state: default teacher for `Math` is `Kim`, user override `Lee`. -/
def stOverrideLee : StoreState :=
  { baseState with
      timetableData := some mathKimData
      teacherInfo := [("7081492-3-4", [("Math", "Lee")])] }

/-- Store state: default teacher for `Math` is `Kim`, user override is the
empty string (stored earlier against a different default). -/
def stOverrideEmpty : StoreState :=
  { baseState with
      timetableData := some mathKimData
      teacherInfo := [("7081492-3-4", [("Math", "")])] }

/-- C1, counterexample: with a previously stored empty-string override for
(K, `Math`) and server default `Kim`, calling `saveTeacherInfo("Math", "Kim")`
(the entered name equals the default) leaves the override entry in place —
the deletion guard `if (newInfo[configKey]?.[subject])` is a truthiness
check that the empty string fails — so `getTeacherInfo` still returns `""`
and the OverrideMap still has an entry for (K, `Math`). -/
theorem C1_counterexample :
    findDefaultInfo stOverrideEmpty.timetableData "Math" = some "Kim" ∧
    ¬ (getTeacherInfo (saveTeacherInfo stOverrideEmpty "Math" "Kim") "Math" = some "Kim" ∧
       rget2 (saveTeacherInfo stOverrideEmpty "Math" "Kim").teacherInfo
         (configKey stOverrideEmpty.classConfig) "Math" = none) := by
  decide

/-- C1 (amended): for every state, subject S and non-empty server default D
for S, after `saveTeacherInfo(S, D)` the OverrideMap has no entry for
(K, S) and `getTeacherInfo S` returns D — provided the previously stored
override for (K, S), if any, is not the empty string. -/
theorem C1_theorem (st : StoreState) (S d : String)
    (hd : findDefaultInfo st.timetableData S = some d) (hne : d ≠ "")
    (hov : ∀ v, rget2 st.teacherInfo (configKey st.classConfig) S = some v → v ≠ "") :
    rget2 (saveTeacherInfo st S d).teacherInfo (configKey st.classConfig) S = none ∧
    getTeacherInfo (saveTeacherInfo st S d) S = some d := by
  have heq : some d = findDefaultInfo st.timetableData S := hd.symm
  cases hcase : rget2 st.teacherInfo (configKey st.classConfig) S with
  | none =>
    have ht : isTruthy (rget2 st.teacherInfo (configKey st.classConfig) S) = false := by
      rw [hcase]
      rfl
    rw [saveTeacherInfo_of_eq_falsy st S d heq ht]
    exact ⟨hcase, getTeacherInfo_eq_default st S d hcase hd hne⟩
  | some v =>
    have hv : v ≠ "" := hov v hcase
    have ht : isTruthy (rget2 st.teacherInfo (configKey st.classConfig) S) = true := by
      rw [hcase]
      simp [isTruthy, hv]
    have hdel := rget2_saveTeacherInfo_deleted st S d heq ht
    refine ⟨hdel, ?_⟩
    apply getTeacherInfo_eq_default
    · rw [saveTeacherInfo_classConfig]
      exact hdel
    · rw [saveTeacherInfo_timetableData]
      exact hd
    · exact hne

/-- C1 witness: the amended statement at a concrete state (override `Lee`,
default `Kim`). -/
theorem C1_witness :
    rget2 (saveTeacherInfo stOverrideLee "Math" "Kim").teacherInfo
        (configKey stOverrideLee.classConfig) "Math" = none ∧
    getTeacherInfo (saveTeacherInfo stOverrideLee "Math" "Kim") "Math" = some "Kim" :=
  C1_theorem stOverrideLee "Math" "Kim" (by decide) (by decide)
    (by
      intro v hv
      have hlee : rget2 stOverrideLee.teacherInfo
          (configKey stOverrideLee.classConfig) "Math" = some "Lee" := by decide
      rw [hlee] at hv
      injection hv with hv2
      subst hv2
      decide)

/-- C3: whenever the entered name E differs from the server default for S
(including an absent default), `saveTeacherInfo(S, E)` stores E under
(K, S) and `getTeacherInfo S` returns E. -/
theorem C3_theorem (st : StoreState) (S E : String)
    (h : some E ≠ findDefaultInfo st.timetableData S) :
    rget2 (saveTeacherInfo st S E).teacherInfo (configKey st.classConfig) S = some E ∧
    getTeacherInfo (saveTeacherInfo st S E) S = some E := by
  have hget : rget2 (saveTeacherInfo st S E).teacherInfo (configKey st.classConfig) S
      = some E := by
    rw [saveTeacherInfo_of_ne st S E h, persistTeacherInfo_teacherInfo]
    unfold rget2
    rw [rget_rupdate_self, Option.some_bind, rget_rupdate_self]
  refine ⟨hget, ?_⟩
  apply getTeacherInfo_of_override
  rw [saveTeacherInfo_classConfig]
  exact hget

/-- C3 witness: entering `Lee` with no loaded snapshot (absent default)
stores and returns `Lee`. -/
theorem C3_witness :
    rget2 (saveTeacherInfo baseState "Math" "Lee").teacherInfo
        (configKey baseState.classConfig) "Math" = some "Lee" ∧
    getTeacherInfo (saveTeacherInfo baseState "Math" "Lee") "Math" = some "Lee" :=
  C3_theorem baseState "Math" "Lee" (by decide)

/-- C7: the override write is idempotent — applying
`saveTeacherInfo(S, E)` twice yields exactly the state (in particular the
OverrideMap and its persisted copy) of applying it once, for every
starting state. -/
theorem C7_theorem (st : StoreState) (S E : String) :
    saveTeacherInfo (saveTeacherInfo st S E) S E = saveTeacherInfo st S E := by
  by_cases h : some E ≠ findDefaultInfo st.timetableData S
  · have h1 := saveTeacherInfo_of_ne st S E h
    have h2 : some E ≠ findDefaultInfo (saveTeacherInfo st S E).timetableData S := by
      rw [saveTeacherInfo_timetableData]
      exact h
    have h3 := saveTeacherInfo_of_ne (saveTeacherInfo st S E) S E h2
    rw [h3, saveTeacherInfo_classConfig, h1, persistTeacherInfo_teacherInfo,
        rget_rupdate_self, Option.getD_some, rupdate_idem, rupdate_idem]
    rfl
  · have he : some E = findDefaultInfo st.timetableData S := of_not_not h
    by_cases ht : isTruthy (rget2 st.teacherInfo (configKey st.classConfig) S) = true
    · have hdel := rget2_saveTeacherInfo_deleted st S E he ht
      have he2 : some E = findDefaultInfo (saveTeacherInfo st S E).timetableData S := by
        rw [saveTeacherInfo_timetableData]
        exact he
      have ht2 : isTruthy (rget2 (saveTeacherInfo st S E).teacherInfo
          (configKey (saveTeacherInfo st S E).classConfig) S) = false := by
        rw [saveTeacherInfo_classConfig, hdel]
        rfl
      exact saveTeacherInfo_of_eq_falsy _ S E he2 ht2
    · have ht' : isTruthy (rget2 st.teacherInfo (configKey st.classConfig) S) = false :=
        (Bool.not_eq_true _) ▸ ht
      have h1 := saveTeacherInfo_of_eq_falsy st S E he ht'
      rw [h1]
      exact h1

/-- Snapshot whose only cell is subject `Math` taught by `Lee`. -/
def mathLeeData : TimetableData :=
  { day_time := ["월"]
    timetable := [[some { period := 1, subject := "Math", teacher := "Lee",
                          replaced := false, original := none }]]
    update_date := "" }

/-- Store state: override `Kim` for `Math` while the loaded snapshot's
default is `Lee` — the override invariant holds. -/
def stKimOverride : StoreState :=
  { baseState with
      timetableData := some mathLeeData
      teacherInfo := [("7081492-3-4", [("Math", "Kim")])] }

/-- C2, counterexample: the invariant is not preserved by every store
operation.  Starting from a state where it holds (override `Kim`, server
default `Lee`), a successful `fetchTimetable` that loads a snapshot whose
default for `Math` is `Kim` leaves the now-matching override entry in
place: the fetch path never touches the OverrideMap. -/
theorem C2_counterexample :
    overrideInvariant stKimOverride ∧
    ¬ overrideInvariant (fetchTimetable stKimOverride none (.ok mathKimData)).1 := by
  decide

/-- C2 (amended): the invariant is maintained only at override-write time:
after `saveTeacherInfo(S, E)` any stored override for (K, S) either
differs from the server default for S or is a leftover empty string;
the snapshot-replacing operations `fetchTimetable` and `changeWeek` leave
the OverrideMap unchanged and therefore do not re-establish the invariant
when the newly loaded defaults change. -/
theorem C2_theorem :
    (∀ (st : StoreState) (S E v : String),
        rget2 (saveTeacherInfo st S E).teacherInfo (configKey st.classConfig) S = some v →
        some v ≠ findDefaultInfo st.timetableData S ∨ v = "") ∧
    (∀ (st : StoreState) (config : Option ClassConfig) (res : FetchResult),
        (fetchTimetable st config res).1.teacherInfo = st.teacherInfo) ∧
    (∀ (st : StoreState) (isNext : Bool) (res : FetchResult),
        (changeWeek st isNext res).1.teacherInfo = st.teacherInfo) := by
  refine ⟨?_, ?_, ?_⟩
  · intro st S E v hv
    by_cases h : some E ≠ findDefaultInfo st.timetableData S
    · rw [saveTeacherInfo_of_ne st S E h, persistTeacherInfo_teacherInfo] at hv
      unfold rget2 at hv
      rw [rget_rupdate_self, Option.some_bind, rget_rupdate_self] at hv
      injection hv with hv2
      subst hv2
      exact Or.inl h
    · have he : some E = findDefaultInfo st.timetableData S := of_not_not h
      by_cases ht : isTruthy (rget2 st.teacherInfo (configKey st.classConfig) S) = true
      · have hdel := rget2_saveTeacherInfo_deleted st S E he ht
        rw [hdel] at hv
        exact absurd hv (by simp)
      · have ht' : isTruthy (rget2 st.teacherInfo (configKey st.classConfig) S) = false :=
          (Bool.not_eq_true _) ▸ ht
        rw [saveTeacherInfo_of_eq_falsy st S E he ht'] at hv
        rw [hv] at ht'
        right
        simpa [isTruthy] using ht'
  · intro st config res
    cases res <;> rfl
  · intro st isNext res
    unfold changeWeek
    split
    · rfl
    · cases res <;> rfl

/-- C2 witness: the write-time part of the amended invariant at a concrete
state (override `Lee` stored over default `Kim`). -/
theorem C2_witness :
    some "Lee" ≠ findDefaultInfo stOverrideLee.timetableData "Math" ∨ "Lee" = "" :=
  C2_theorem.1 stOverrideLee "Math" "Lee" "Lee" (by decide)

/-- A candidate class identity used by the `saveConfig` witness. -/
def candidateConfig : ClassConfig :=
  { school := "한국중학교"
    schoolCode := "1234567"
    grade := "1"
    classNo := "2"
    lunchAfter := 3 }

/-- Base state with a pending candidate identity in the edit buffer. -/
def stWithTemp : StoreState :=
  { baseState with tempConfig := some candidateConfig }

/-- C4: `saveConfig` validates by fetching with the candidate first.  On
fetch success the candidate becomes the active identity, is persisted to
the cookie, and the edit buffer is cleared; on fetch failure the active
identity, the persisted identity and the persisted OverrideMap are all
unchanged and an error message is set. -/
theorem C4_theorem (st : StoreState) (c : ClassConfig)
    (h : st.tempConfig = some c) :
    (∀ data : TimetableData,
      (saveConfig st (.ok data)).1.classConfig = c ∧
      (saveConfig st (.ok data)).1.cookieClassConfig = some c ∧
      (saveConfig st (.ok data)).1.tempConfig = none ∧
      (saveConfig st (.ok data)).2.2 = true) ∧
    (∀ e : JsErr,
      (saveConfig st (.error e)).1.classConfig = st.classConfig ∧
      (saveConfig st (.error e)).1.cookieClassConfig = st.cookieClassConfig ∧
      (saveConfig st (.error e)).1.cookieTeacherInfo = st.cookieTeacherInfo ∧
      (saveConfig st (.error e)).1.error = some (saveErrorMessage e) ∧
      (saveConfig st (.error e)).2.2 = false) := by
  constructor
  · intro data
    simp [saveConfig, h, fetchTimetable]
  · intro e
    simp [saveConfig, h, fetchTimetable]

/-- C4 witness: a failing fetch (HTTP 404) with a pending candidate leaves
identity, cookies and override map untouched and sets an error. -/
theorem C4_witness :
    (saveConfig stWithTemp (.error (some "Error: 404"))).1.classConfig
        = stWithTemp.classConfig ∧
    (saveConfig stWithTemp (.error (some "Error: 404"))).1.cookieClassConfig
        = stWithTemp.cookieClassConfig ∧
    (saveConfig stWithTemp (.error (some "Error: 404"))).1.cookieTeacherInfo
        = stWithTemp.cookieTeacherInfo ∧
    (saveConfig stWithTemp (.error (some "Error: 404"))).1.error
        = some (saveErrorMessage (some "Error: 404")) ∧
    (saveConfig stWithTemp (.error (some "Error: 404"))).2.2 = false :=
  (C4_theorem stWithTemp candidateConfig rfl).2 (some "Error: 404")

/-- C5, counterexample: when the first `changeWeek(true)` call's fetch
fails, the "is next week" flag stays `false`, so an immediately following
`changeWeek(true)` is not a no-op and fetches again — the two consecutive
calls issue two fetches, not at most one. -/
theorem C5_counterexample :
    ¬ ((changeWeek baseState true (.error none)).2.length +
       (changeWeek (changeWeek baseState true (.error none)).1 true
          (.error none)).2.length ≤ 1) := by
  decide

/-- C5 (amended): `changeWeek` is a no-op (no fetch, no state change) when
already on the requested week; a successful fetch sets the flag to the
requested week while a failed fetch leaves it unchanged; and two
consecutive `changeWeek(true)` calls issue at most one fetch provided the
first call's fetch succeeds (on failure the second call fetches again). -/
theorem C5_theorem :
    (∀ (st : StoreState) (isNext : Bool) (res : FetchResult),
        st.isNextWeek = isNext → changeWeek st isNext res = (st, [])) ∧
    (∀ (st : StoreState) (isNext : Bool) (res : FetchResult),
        st.isNextWeek ≠ isNext → (changeWeek st isNext res).2.length = 1) ∧
    (∀ (st : StoreState) (isNext : Bool) (data : TimetableData),
        (changeWeek st isNext (.ok data)).1.isNextWeek = isNext) ∧
    (∀ (st : StoreState) (isNext : Bool) (e : JsErr),
        (changeWeek st isNext (.error e)).1.isNextWeek = st.isNextWeek) ∧
    (∀ (st : StoreState) (data : TimetableData) (res : FetchResult),
        (changeWeek st true (.ok data)).2.length +
          (changeWeek (changeWeek st true (.ok data)).1 true res).2.length ≤ 1) := by
  refine ⟨?_, ?_, ?_, ?_, ?_⟩
  · intro st isNext res h
    cases isNext <;> simp [changeWeek, h]
  · intro st isNext res h
    cases isNext <;> cases hw : st.isNextWeek <;>
      simp_all [changeWeek] <;> cases res <;> rfl
  · intro st isNext data
    cases isNext <;> cases hw : st.isNextWeek <;> simp [changeWeek, hw]
  · intro st isNext e
    cases isNext <;> cases hw : st.isNextWeek <;> simp [changeWeek, hw]
  · intro st data res
    cases hw : st.isNextWeek <;> simp [changeWeek, hw]

/-- C5 witness: on the requested week already, `changeWeek` issues no
fetch and changes nothing. -/
theorem C5_witness : changeWeek baseState false (.ok mathKimData) = (baseState, []) :=
  C5_theorem.1 baseState false (.ok mathKimData) rfl

/-- C6: `fetchTimetable` replaces the snapshot wholesale on success; on a
non-2xx response or transport failure it re-throws the fetch error to the
caller and leaves the previously loaded snapshot untouched. -/
theorem C6_theorem :
    ∀ (st : StoreState) (config : Option ClassConfig) (data : TimetableData) (e : JsErr),
      ((fetchTimetable st config (.ok data)).1.timetableData = some data ∧
       (fetchTimetable st config (.ok data)).2.2 = none) ∧
      ((fetchTimetable st config (.error e)).1.timetableData = st.timetableData ∧
       (fetchTimetable st config (.error e)).2.2 = some e) := by
  intro st config data e
  exact ⟨⟨rfl, rfl⟩, ⟨rfl, rfl⟩⟩

/-- C8: for every outcome, `initializeStore` and `changeWeek` convert the
fetch error into a store-level message and never propagate it (they are
total with no thrown component), their loading flags are cleared on
completion, and `fetchTimetable` clears its loading flag, sets the message
and deliberately re-throws exactly on failure. -/
theorem C8_theorem :
    (∀ (st : StoreState) (res : FetchResult),
        (initializeStore st res).1.isLoading = false) ∧
    (∀ (st : StoreState) (e : JsErr),
        (initializeStore st (.error e)).1.error = some (fetchErrorMessage e)) ∧
    (∀ (st : StoreState) (isNext : Bool) (res : FetchResult),
        st.isNextWeek ≠ isNext → (changeWeek st isNext res).1.isWeekChangeLoading = false) ∧
    (∀ (st : StoreState) (isNext : Bool) (e : JsErr),
        st.isNextWeek ≠ isNext →
          (changeWeek st isNext (.error e)).1.error = some (fetchErrorMessage e)) ∧
    (∀ (st : StoreState) (config : Option ClassConfig) (res : FetchResult),
        (fetchTimetable st config res).1.isLoading = false) ∧
    (∀ (st : StoreState) (config : Option ClassConfig) (e : JsErr),
        (fetchTimetable st config (.error e)).1.error = some (fetchErrorMessage e) ∧
        (fetchTimetable st config (.error e)).2.2 = some e) ∧
    (∀ (st : StoreState) (config : Option ClassConfig) (data : TimetableData),
        (fetchTimetable st config (.ok data)).2.2 = none) := by
  refine ⟨?_, ?_, ?_, ?_, ?_, ?_, ?_⟩
  · intro st res
    cases res <;> rfl
  · intro st e
    rfl
  · intro st isNext res h
    cases isNext <;> cases hw : st.isNextWeek <;>
      simp_all [changeWeek] <;> cases res <;> rfl
  · intro st isNext e h
    cases isNext <;> cases hw : st.isNextWeek <;> simp_all [changeWeek]
  · intro st config res
    cases res <;> rfl
  · intro st config e
    exact ⟨rfl, rfl⟩
  · intro st config data
    rfl

/-- C8 witness: a failed week change clears the week-change loading flag. -/
theorem C8_witness :
    (changeWeek baseState true (.error none)).1.isWeekChangeLoading = false :=
  C8_theorem.2.2.1 baseState true (.error none) (by decide)

/-- C9: the teacher-info editor's save handler calls the store
(`onSave`, wired to `setTeacherOverride`) with the entered name exactly
when it is at most 4 characters long; above 4 characters it sets the
validation message and makes no store call. -/
theorem C9_theorem (s : String) :
    ((handleSave s).savedInfo = some s ↔ s.length ≤ 4) ∧
    (s.length > 4 →
      (handleSave s).savedInfo = none ∧
      (handleSave s).error = "선생님 이름은 4자를 초과할 수 없습니다") := by
  unfold handleSave
  by_cases h : s.length > 4
  · rw [if_pos h]
    refine ⟨⟨fun hv => absurd hv (by simp), fun hle => absurd h (by omega)⟩, ?_⟩
    intro _
    exact ⟨rfl, rfl⟩
  · rw [if_neg h]
    refine ⟨⟨fun _ => by omega, fun _ => rfl⟩, fun hgt => absurd hgt h⟩

/-- C9 witness: a 5-character name is rejected with the validation message
and no store call. -/
theorem C9_witness :
    (handleSave "abcde").savedInfo = none ∧
    (handleSave "abcde").error = "선생님 이름은 4자를 초과할 수 없습니다" :=
  ( C9_theorem "abcde").2 (by decide)

/-- Snapshot whose only cell is subject `Math` with an empty-string
teacher. -/
def mathEmptyData : TimetableData :=
  { day_time := ["월"]
    timetable := [[some { period := 1, subject := "Math", teacher := "",
                          replaced := false, original := none }]]
    update_date := "" }

/-- Base state with that snapshot loaded and no overrides. -/
def stEmptyDefault : StoreState :=
  { baseState with timetableData := some mathEmptyData }

/-- C10: with no override for (K, S), an empty-string server default is
coerced to `undefined` by `defaultInfo || undefined`, so `getTeacherInfo`
returns `undefined`; an empty-string override, by contrast, passes the
`override !== undefined` test and is returned as the empty string. -/
theorem C10_theorem (st : StoreState) (S : String) :
    (rget2 st.teacherInfo (configKey st.classConfig) S = none →
      findDefaultInfo st.timetableData S = some "" →
      getTeacherInfo st S = none) ∧
    (rget2 st.teacherInfo (configKey st.classConfig) S = some "" →
      getTeacherInfo st S = some "") := by
  constructor
  · intro hov hd
    simp only [getTeacherInfo]
    rw [hov, hd]
    rfl
  · intro hov
    exact getTeacherInfo_of_override st S "" hov

/-- C10 witness: an empty-string default with no override yields
`undefined`. -/
theorem C10_witness : getTeacherInfo stEmptyDefault "Math" = none :=
  (C10_theorem stEmptyDefault "Math").1 (by decide) (by decide)

end Timetable
